import Mathlib

/-!
Shallow embedding of the scene-transition engine of this repository: the two
parallel implementations
`src/Phase 2/matplotlib-main/lib/matplotlib/transitions.py` and
`src/Phase 2/smooth_transitions.py`.
Real arithmetic of the Python code is modelled exactly over `ℚ` (every formula
in the interpolation and scheduling code is rational); the sinusoidal easing
functions, which call `np.cos`/`np.sin`, are modelled over `ℝ`.
-/

/-- Python exceptions the embedded code can raise (`ValueError`, including the
numpy broadcasting error and the matplotlib color-parsing error). -/
inductive Err where
  | valueError : Err
  | typeError : Err
deriving DecidableEq

/-- Python values handled by `interpolate_values` in `transitions.py`: numbers
(`int`/`float`), 1-D numpy arrays, lists/tuples, and strings. Python lists and
tuples are both modelled by `Val.list` (the code treats them identically and
returns a list). -/
inductive Val where
  | num (x : ℚ) : Val
  | arr (xs : List ℚ) : Val
  | list (vs : List Val) : Val
  | str (s : String) : Val

/-- Pair up two 1-D numpy arrays under numpy broadcasting: equal lengths pair
elementwise, a length-1 array broadcasts against the other, any other pair of
shapes raises a `ValueError` (modelled as `none`). -/
def npBroadcastZip (a b : List ℚ) : Option (List (ℚ × ℚ)) :=
  if a.length = b.length then some (a.zip b)
  else
    match a, b with
    | [x], ys => some (ys.map (fun y => (x, y)))
    | xs, [y] => some (xs.map (fun x => (x, y)))
    | _, _ => none

/-- numpy evaluation of `start + (end - start) * progress` on 1-D arrays. -/
def npLinearBlend (a b : List ℚ) (p : ℚ) : Except Err (List ℚ) :=
  match npBroadcastZip a b with
  | some ps => Except.ok (ps.map (fun sv => sv.1 + (sv.2 - sv.1) * p))
  | none => Except.error Err.valueError

/-- Model of the external color parser `matplotlib.colors.to_rgb` on string
inputs: the normalized RGB triple for the color names and hex strings this
development exercises; `none` models the `ValueError` raised on strings that
are not color specifications (such as line-style tokens). -/
def to_rgb (s : String) : Option (ℚ × ℚ × ℚ) :=
  if s = "red" ∨ s = "#ff0000" then some (1, 0, 0)
  else if s = "blue" ∨ s = "#0000ff" then some (0, 0, 1)
  else if s = "white" ∨ s = "#ffffff" then some (1, 1, 1)
  else if s = "black" ∨ s = "#000000" then some (0, 0, 0)
  else none

namespace Transitions

mutual

/-- `interpolate_values` of `transitions.py` (lines 81-119): dispatch on the
runtime types of the two inputs. Numbers and numpy arrays blend linearly;
lists/tuples of equal length recurse elementwise; for two strings the code
tries to parse both as colors and blend the RGB triples, falling back to the
hard switch `start_val if progress < 0.5 else end_val` when parsing fails;
every other combination (including lists of unequal length) falls through to
that same hard switch. -/
def interpolate_values : Val → Val → ℚ → Except Err Val
  | Val.num a, Val.num b, p => Except.ok (Val.num (a + (b - a) * p))
  | Val.arr a, Val.arr b, p => (npLinearBlend a b p).map Val.arr
  | Val.list a, Val.list b, p =>
      if a.length = b.length then (interpolateElems a b p).map Val.list
      else Except.ok (if p < 1/2 then Val.list a else Val.list b)
  | Val.str a, Val.str b, p =>
      match to_rgb a, to_rgb b with
      | some f, some t =>
          Except.ok (Val.list [Val.num (f.1 + (t.1 - f.1) * p),
            Val.num (f.2.1 + (t.2.1 - f.2.1) * p),
            Val.num (f.2.2 + (t.2.2 - f.2.2) * p)])
      | _, _ => Except.ok (if p < 1/2 then Val.str a else Val.str b)
  | a, b, p => Except.ok (if p < 1/2 then a else b)

/-- The list comprehension `[interpolate_values(s, e, progress) for s, e in
zip(start_val, end_val)]` of `transitions.py` line 105: elementwise recursion
over the zipped lists, propagating any exception. -/
def interpolateElems : List Val → List Val → ℚ → Except Err (List Val)
  | [], _, _ => Except.ok []
  | _ :: _, [], _ => Except.ok []
  | x :: xs, y :: ys, p => do
      let v ← interpolate_values x y p
      let vs ← interpolateElems xs ys p
      Except.ok (v :: vs)

end

end Transitions

namespace Transitions

/-- `EasingFunctions.linear` of `transitions.py` line 27. -/
def linear (t : ℚ) : ℚ := t

/-- `EasingFunctions.ease_in_quad` of `transitions.py` line 32. -/
def ease_in_quad (t : ℚ) : ℚ := t * t

/-- `EasingFunctions.ease_out_quad` of `transitions.py` line 37. -/
def ease_out_quad (t : ℚ) : ℚ := 1 - (1 - t) * (1 - t)

/-- `EasingFunctions.ease_in_out_quad` of `transitions.py` line 42. -/
def ease_in_out_quad (t : ℚ) : ℚ :=
  if t < 1/2 then 2 * t * t else 1 - (-2 * t + 2) ^ 2 / 2

/-- `EasingFunctions.ease_in_cubic` of `transitions.py` line 49. -/
def ease_in_cubic (t : ℚ) : ℚ := t * t * t

/-- `EasingFunctions.ease_out_cubic` of `transitions.py` line 54. -/
def ease_out_cubic (t : ℚ) : ℚ := 1 - (1 - t) ^ 3

/-- `EasingFunctions.ease_in_out_cubic` of `transitions.py` line 59. -/
def ease_in_out_cubic (t : ℚ) : ℚ :=
  if t < 1/2 then 4 * t * t * t else 1 - (-2 * t + 2) ^ 3 / 2

/-- `EasingFunctions.ease_in_sine` of `transitions.py` line 66 (`np.cos` is the
real cosine, so this easing is modelled over `ℝ`). -/
noncomputable def ease_in_sine (t : ℝ) : ℝ := 1 - Real.cos (t * Real.pi / 2)

/-- `EasingFunctions.ease_out_sine` of `transitions.py` line 71. -/
noncomputable def ease_out_sine (t : ℝ) : ℝ := Real.sin (t * Real.pi / 2)

/-- `EasingFunctions.ease_in_out_sine` of `transitions.py` line 76. -/
noncomputable def ease_in_out_sine (t : ℝ) : ℝ := -(Real.cos (Real.pi * t) - 1) / 2

end Transitions

namespace SmoothTransitions

/-- `EasingFunctions.linear` of `smooth_transitions.py` line 12. -/
def linear (t : ℚ) : ℚ := t

/-- `EasingFunctions.ease_in_quad` of `smooth_transitions.py` line 16. -/
def ease_in_quad (t : ℚ) : ℚ := t * t

/-- `EasingFunctions.ease_out_quad` of `smooth_transitions.py` line 20. -/
def ease_out_quad (t : ℚ) : ℚ := 1 - (1 - t) * (1 - t)

/-- `EasingFunctions.ease_in_out_quad` of `smooth_transitions.py` line 24. -/
def ease_in_out_quad (t : ℚ) : ℚ :=
  if t < 1/2 then 2 * t * t else 1 - 2 * (1 - t) * (1 - t)

/-- `EasingFunctions.ease_in_cubic` of `smooth_transitions.py` line 30. -/
def ease_in_cubic (t : ℚ) : ℚ := t * t * t

/-- `EasingFunctions.ease_out_cubic` of `smooth_transitions.py` line 34. -/
def ease_out_cubic (t : ℚ) : ℚ := 1 - (1 - t) ^ 3

/-- `EasingFunctions.ease_in_out_cubic` of `smooth_transitions.py` line 38. -/
def ease_in_out_cubic (t : ℚ) : ℚ :=
  if t < 1/2 then 4 * t * t * t else 1 - 4 * (1 - t) ^ 3

/-- The names of the static methods of `EasingFunctions` in
`smooth_transitions.py`. -/
def easingNames : List String :=
  ["linear", "ease_in_quad", "ease_out_quad", "ease_in_out_quad",
   "ease_in_cubic", "ease_out_cubic", "ease_in_out_cubic"]

/-- Model of `getattr(EasingFunctions, easing, EasingFunctions.linear)` in
`smooth_transitions.py` line 95 (the same lookup pattern appears in
`transitions.py` line 166): resolve the named static method of the
`EasingFunctions` class, returning `linear` for any name that is not one of
its methods. -/
def getEasing (name : String) : ℚ → ℚ :=
  if name = "linear" then linear
  else if name = "ease_in_quad" then ease_in_quad
  else if name = "ease_out_quad" then ease_out_quad
  else if name = "ease_in_out_quad" then ease_in_out_quad
  else if name = "ease_in_cubic" then ease_in_cubic
  else if name = "ease_out_cubic" then ease_out_cubic
  else if name = "ease_in_out_cubic" then ease_in_out_cubic
  else linear

/-- `interpolate_values` of `smooth_transitions.py` (lines 43-47): the single
expression `from_val + (to_val - from_val) * progress` evaluated under Python
and numpy operator semantics: two numbers blend as scalars, a number paired
with a 1-D array broadcasts, two arrays blend under numpy broadcasting
(incompatible lengths raise `ValueError`), and operand kinds without
arithmetic (lists, strings) raise a `TypeError`-family error. -/
def interpolate_values (from_val to_val : Val) (progress : ℚ) : Except Err Val :=
  match from_val, to_val with
  | Val.num a, Val.num b => Except.ok (Val.num (a + (b - a) * progress))
  | Val.arr a, Val.arr b => (npLinearBlend a b progress).map Val.arr
  | Val.num a, Val.arr b =>
      Except.ok (Val.arr (b.map (fun y => a + (y - a) * progress)))
  | Val.arr a, Val.num b =>
      Except.ok (Val.arr (a.map (fun x => x + (b - x) * progress)))
  | _, _ => Except.error Err.typeError

/-- Model of the external converter `matplotlib.colors.to_rgba`: a 4-tuple of
in-range numbers passes through, a 3-tuple gains alpha 1, and a string is
parsed as a named/hex color (alpha 1); everything else, and any out-of-range
channel, is a `ValueError` (`none`). -/
def to_rgba (v : Val) : Option (ℚ × ℚ × ℚ × ℚ) :=
  match v with
  | Val.list [Val.num r, Val.num g, Val.num b, Val.num a] =>
      if 0 ≤ r ∧ r ≤ 1 ∧ 0 ≤ g ∧ g ≤ 1 ∧ 0 ≤ b ∧ b ≤ 1 ∧ 0 ≤ a ∧ a ≤ 1 then
        some (r, g, b, a)
      else none
  | Val.list [Val.num r, Val.num g, Val.num b] =>
      if 0 ≤ r ∧ r ≤ 1 ∧ 0 ≤ g ∧ g ≤ 1 ∧ 0 ≤ b ∧ b ≤ 1 then
        some (r, g, b, 1)
      else none
  | Val.str s =>
      match to_rgb s with
      | some rgb => some (rgb.1, rgb.2.1, rgb.2.2, 1)
      | none => none
  | _ => none

/-- `interpolate_colors` of `smooth_transitions.py` (lines 49-59): convert both
inputs with `to_rgba` and blend each of the four channels linearly; a failed
conversion raises (propagates) the `ValueError`. -/
def interpolate_colors (from_color to_color : Val) (progress : ℚ) :
    Except Err (ℚ × ℚ × ℚ × ℚ) :=
  match to_rgba from_color, to_rgba to_color with
  | some f, some t =>
      Except.ok (f.1 + (t.1 - f.1) * progress,
        f.2.1 + (t.2.1 - f.2.1) * progress,
        f.2.2.1 + (t.2.2.1 - f.2.2.1) * progress,
        f.2.2.2 + (t.2.2.2 - f.2.2.2) * progress)
  | _, _ => Except.error Err.valueError

end SmoothTransitions

/-- Truncation toward zero: the semantics of Python `int()` applied to a
float, as in `total_frames = int(duration * fps)`. -/
def pyInt (x : ℚ) : ℤ := if 0 ≤ x then ⌊x⌋ else ⌈x⌉

/-- The per-frame progress computation shared by both implementations
(`smooth_transitions.py` lines 139-140, `transitions.py` lines 191-192):
`progress = frame / (total_frames - 1) if total_frames > 1 else 1`, then
`progress = min(1.0, max(0.0, progress))`. -/
def frameProgress (total_frames : ℤ) (frame : ℕ) : ℚ :=
  min 1 (max 0 (if 1 < total_frames then (frame : ℚ) / ((total_frames : ℚ) - 1) else 1))

namespace SmoothTransitions

/-- The `from_data`/`to_data` dictionaries of `smooth_transition`, restricted
to the numeric series keys the modelled `'line'` branch reads. -/
structure DataDict where
  x : Option (List ℚ)
  y : Option (List ℚ)

/-- One frame delivered by the animation loop of `smooth_transition` for the
`'line'` branch: the frame index, the clamped progress, the eased progress,
and the y-series interpolated at the eased progress (`none` when one side
lacks a `'y'` entry, in which case the plot keeps its previous data). The
scatter and bar branches schedule frames identically and differ only in which
data keys they update. -/
structure Frame where
  frameIndex : ℕ
  progress : ℚ
  eased_progress : ℚ
  ydata : Option (Except Err Val)

/-- The animation object returned by `smooth_transition`: its frame count and
the sequence of frames it delivers when driven from start to end
(`FuncAnimation(..., frames=total_frames, ...)` calls `animate` once per index
in `range(total_frames)`). -/
structure Session where
  total_frames : ℤ
  frames : List Frame

/-- The `animate(frame)` closure defined inside `smooth_transition`
(`smooth_transitions.py` lines 137-226), for the `'line'` branch: compute the
clamped progress, apply the easing function, and interpolate the y-series at
the eased progress when both data dictionaries carry `'y'` (otherwise the
plot keeps its previous data). -/
def animate (from_data to_data : DataDict) (easing_func : ℚ → ℚ)
    (total_frames : ℤ) (frame : ℕ) : Frame :=
  let progress := frameProgress total_frames frame
  let eased := easing_func progress
  { frameIndex := frame
    progress := progress
    eased_progress := eased
    ydata :=
      match from_data.y, to_data.y with
      | some fy, some ty =>
          some (interpolate_values (Val.arr fy) (Val.arr ty) eased)
      | _, _ => none }

/-- `smooth_transition` of `smooth_transitions.py` (lines 61-232) over the
modelled data keys: resolve the easing function (unknown names fall back to
`linear`), compute `total_frames = int(duration * fps)` — the duration and
frame rate are never validated — raise `ValueError` for an unsupported
`plot_type` (line 123) before any animation exists, and for a supported plot
type perform the initial draw of the "from" state (`ax.plot` / `ax.scatter` /
`ax.bar` at lines 105, 111, 117, with `from_data.get('x', [])` and
`from_data.get('y', [])`), which raises `ValueError` when the two series have
different first dimensions; only then return the animation that delivers
`animate(frame)` for each `frame ∈ range(total_frames)`. -/
def smooth_transition (from_data to_data : DataDict) (duration : ℚ) (fps : ℤ)
    (easing : String) (plot_type : String) : Except Err Session :=
  let easing_func := getEasing easing
  let total_frames := pyInt (duration * (fps : ℚ))
  if plot_type = "line" ∨ plot_type = "scatter" ∨ plot_type = "bar" then
    if (from_data.x.getD []).length = (from_data.y.getD []).length then
      Except.ok
        { total_frames := total_frames
          frames := (List.range total_frames.toNat).map
            (animate from_data to_data easing_func total_frames) }
    else Except.error Err.valueError
  else Except.error Err.valueError

end SmoothTransitions

namespace Transitions

/-- The normalized dictionary produced by `_normalize_data`. -/
structure NormData where
  x : Option (List ℚ)
  y : Option (List ℚ)
  heights : Option (List ℚ)

/-- The `data` argument shapes of `_normalize_data` modelled here: an
already-dict value, or a 1-D numpy array of numbers (Python lists/tuples of
numbers normalize the same way in the `'line'` and `'bar'` branches). -/
inductive PyData where
  | dict (x y heights : Option (List ℚ)) : PyData
  | ndarray (xs : List ℚ) : PyData

/-- `_normalize_data` of `transitions.py` (lines 313-329): a dict is returned
(copied) unchanged without inspecting `plot_type`; an array becomes
`{'y': ...}` for `'line'` and `{'heights': ...}` for `'bar'`; every other
combination — including any unrecognized `plot_type` with non-dict data —
raises `ValueError`. -/
def _normalize_data (data : PyData) (plot_type : String) : Except Err NormData :=
  match data with
  | PyData.dict x y heights => Except.ok { x := x, y := y, heights := heights }
  | PyData.ndarray xs =>
      if plot_type = "line" then Except.ok { x := none, y := some xs, heights := none }
      else if plot_type = "bar" then Except.ok { x := none, y := none, heights := some xs }
      else Except.error Err.valueError

/-- The captured state of one line, as extracted by `_extract_figure_state`
(`transitions.py` lines 356-366). -/
structure LineState where
  xdata : List ℚ
  ydata : List ℚ
  color : Val
  linewidth : ℚ
  linestyle : String
  marker : String
  markersize : ℚ

/-- One line drawn into the transient figure by `_render_interpolated_figure`
(`transitions.py` lines 443-456): every numeric and color property is
interpolated; `linestyle` and `marker` are taken from the "from" line. -/
structure RenderedLine where
  xdata : Val
  ydata : Val
  color : Val
  linewidth : Val
  markersize : Val
  linestyle : String
  marker : String

/-- The line loop of `_render_interpolated_figure` (`transitions.py` lines
442-456): `num_lines = min(len(from), len(to))`; for each `j < num_lines` the
j-th "from" line is paired positionally with the j-th "to" line, each property
is interpolated at the frame progress, and exactly those `num_lines` lines are
plotted — lines beyond the shorter list are never drawn. The collection and
patch loops (lines 459-484) truncate to `min` identically. -/
def render_lines : List LineState → List LineState → ℚ → Except Err (List RenderedLine)
  | fl :: fls, tl :: tls, progress => do
      let xdata ← interpolate_values (Val.arr fl.xdata) (Val.arr tl.xdata) progress
      let ydata ← interpolate_values (Val.arr fl.ydata) (Val.arr tl.ydata) progress
      let color ← interpolate_values fl.color tl.color progress
      let linewidth ← interpolate_values (Val.num fl.linewidth) (Val.num tl.linewidth) progress
      let markersize ← interpolate_values (Val.num fl.markersize) (Val.num tl.markersize) progress
      let rest ← render_lines fls tls progress
      Except.ok (⟨xdata, ydata, color, linewidth, markersize, fl.linestyle, fl.marker⟩ :: rest)
  | _, _, _ => Except.ok []

mutual

/-- A value free of color-parseable strings: on such values every branch of
`interpolate_values` that dispatch can reach treats the two equal arguments
symmetrically (no string is converted to an RGB triple). -/
def colorFree : Val → Bool
  | Val.num _ => true
  | Val.arr _ => true
  | Val.str s => (to_rgb s).isNone
  | Val.list vs => colorFreeList vs

/-- `colorFree` on every element of a list. -/
def colorFreeList : List Val → Bool
  | [] => true
  | v :: vs => colorFree v && colorFreeList vs

end

/-- A concrete captured line used to exercise the pairing truncation: x/y data
empty, all scalar properties equal to `a`, numeric color `a`. -/
def sampleLine (a : ℚ) : LineState :=
  ⟨[], [], Val.num a, a, "-", "o", a⟩

/-- The line rendered by pairing `sampleLine 0` with `sampleLine 1` at
progress 1/2. -/
def sampleRendered : RenderedLine :=
  ⟨Val.arr [], Val.arr [], Val.num (1/2), Val.num (1/2), Val.num (1/2), "-", "o"⟩

end Transitions

/-- A two-frame session: the result of `smooth_transition` with
`duration = 2`, `fps = 1`, linear easing, no data keys. -/
def sampleSession : SmoothTransitions.Session :=
  { total_frames := 2
    frames := [{ frameIndex := 0, progress := 0, eased_progress := 0, ydata := none },
               { frameIndex := 1, progress := 1, eased_progress := 1, ydata := none }] }

/-! ## Helper lemmas -/

theorem zip_self_blend (xs : List ℚ) (p : ℚ) :
    (xs.zip xs).map (fun sv => sv.1 + (sv.2 - sv.1) * p) = xs := by
  induction xs with
  | nil => rfl
  | cons x xs ih => simp [ih]

theorem zip_map_blend (xs ys : List ℚ) (p : ℚ) :
    (xs.zip ys).map (fun sv => sv.1 + (sv.2 - sv.1) * p)
      = List.zipWith (fun u v => u + (v - u) * p) xs ys := by
  induction xs generalizing ys with
  | nil => simp
  | cons x xs ih => cases ys <;> simp [ih]

theorem npLinearBlend_self (xs : List ℚ) (p : ℚ) :
    npLinearBlend xs xs p = Except.ok xs := by
  simp [npLinearBlend, npBroadcastZip, zip_self_blend]

theorem npLinearBlend_eq_zipWith (xs ys : List ℚ) (h : xs.length = ys.length) (p : ℚ) :
    npLinearBlend xs ys p
      = Except.ok (List.zipWith (fun u v => u + (v - u) * p) xs ys) := by
  simp [npLinearBlend, npBroadcastZip, h, zip_map_blend]

theorem npBroadcastZip_none (xs ys : List ℚ) (h : xs.length ≠ ys.length)
    (hx : xs.length ≠ 1) (hy : ys.length ≠ 1) : npBroadcastZip xs ys = none := by
  unfold npBroadcastZip
  rw [if_neg h]
  rcases xs with _ | ⟨x, _ | ⟨x2, xs⟩⟩
  · rcases ys with _ | ⟨y, _ | ⟨y2, ys⟩⟩
    · exact absurd rfl h
    · simp at hy
    · rfl
  · simp at hx
  · rcases ys with _ | ⟨y, _ | ⟨y2, ys⟩⟩
    · rfl
    · simp at hy
    · rfl

theorem getEasing_default (name : String) (h : name ∉ SmoothTransitions.easingNames) :
    SmoothTransitions.getEasing name = SmoothTransitions.linear := by
  simp only [SmoothTransitions.easingNames, List.mem_cons, List.not_mem_nil, or_false,
    not_or] at h
  obtain ⟨h1, h2, h3, h4, h5, h6, h7⟩ := h
  simp [SmoothTransitions.getEasing, h1, h2, h3, h4, h5, h6, h7]

theorem ease_in_out_quad_agree (t : ℚ) :
    Transitions.ease_in_out_quad t = SmoothTransitions.ease_in_out_quad t := by
  unfold Transitions.ease_in_out_quad SmoothTransitions.ease_in_out_quad
  split_ifs <;> ring

theorem ease_in_out_cubic_agree (t : ℚ) :
    Transitions.ease_in_out_cubic t = SmoothTransitions.ease_in_out_cubic t := by
  unfold Transitions.ease_in_out_cubic SmoothTransitions.ease_in_out_cubic
  split_ifs <;> ring

/-- The hard-switch behavior of the string branch of
`transitions.py::interpolate_values` when color parsing of either side
fails. -/
theorem interpolate_str_fallback (a b : String) (p : ℚ)
    (h : to_rgb a = none ∨ to_rgb b = none) :
    (p < 1/2 → Transitions.interpolate_values (Val.str a) (Val.str b) p
        = Except.ok (Val.str a))
    ∧ (1/2 ≤ p → Transitions.interpolate_values (Val.str a) (Val.str b) p
        = Except.ok (Val.str b)) := by
  have hmain : Transitions.interpolate_values (Val.str a) (Val.str b) p
      = Except.ok (if p < 1/2 then Val.str a else Val.str b) := by
    rcases h with h | h
    · simp [Transitions.interpolate_values, h]
    · cases hra : to_rgb a <;> simp [Transitions.interpolate_values, hra, h]
  constructor
  · intro hp
    rw [hmain, if_pos hp]
  · intro hp
    rw [hmain, if_neg (not_lt.mpr hp)]

/-! ## Claim theorems -/

/-- C8: for every `t ∈ [0,1]`, each of the seven easing functions defined in
both `transitions.py` and `smooth_transitions.py` (linear, ease_in_quad,
ease_out_quad, ease_in_out_quad, ease_in_cubic, ease_out_cubic,
ease_in_out_cubic) returns the same value in the two implementations; in
particular the two cubic ease-in-out formulations `1 - pow(-2t+2, 3)/2` and
`1 - 4(1-t)^3` define the same function. -/
theorem easing_functions_agree (t : ℚ) (h0 : 0 ≤ t) (h1 : t ≤ 1) :
    Transitions.linear t = SmoothTransitions.linear t
    ∧ Transitions.ease_in_quad t = SmoothTransitions.ease_in_quad t
    ∧ Transitions.ease_out_quad t = SmoothTransitions.ease_out_quad t
    ∧ Transitions.ease_in_out_quad t = SmoothTransitions.ease_in_out_quad t
    ∧ Transitions.ease_in_cubic t = SmoothTransitions.ease_in_cubic t
    ∧ Transitions.ease_out_cubic t = SmoothTransitions.ease_out_cubic t
    ∧ Transitions.ease_in_out_cubic t = SmoothTransitions.ease_in_out_cubic t :=
  ⟨rfl, rfl, rfl, ease_in_out_quad_agree t, rfl, rfl, ease_in_out_cubic_agree t⟩

/-- Witness for C8 at `t = 3/4`. -/
theorem easing_functions_agree_witness :
    (0 : ℚ) ≤ 3/4 ∧ (3/4 : ℚ) ≤ 1
    ∧ Transitions.ease_in_out_cubic (3/4) = SmoothTransitions.ease_in_out_cubic (3/4) :=
  ⟨by norm_num, by norm_num,
    (easing_functions_agree (3/4) (by norm_num) (by norm_num)).2.2.2.2.2.2⟩

/-- C2: for two Categorical (non-color-parseable) string values, the
interpolator is a hard switch at progress 0.5 — the result is the "from"
string for `progress < 0.5` and the "to" string for `progress ≥ 0.5`. -/
theorem categorical_hard_switch (a b : String) (p : ℚ)
    (h : to_rgb a = none ∨ to_rgb b = none) :
    (p < 1/2 → Transitions.interpolate_values (Val.str a) (Val.str b) p
        = Except.ok (Val.str a))
    ∧ (1/2 ≤ p → Transitions.interpolate_values (Val.str a) (Val.str b) p
        = Except.ok (Val.str b)) :=
  interpolate_str_fallback a b p h

/-- Witness for C2: `interpolate("solid", "dashed", 0.49) = "solid"` and
`interpolate("solid", "dashed", 0.5) = "dashed"`. -/
theorem categorical_hard_switch_witness :
    Transitions.interpolate_values (Val.str "solid") (Val.str "dashed") (49/100)
        = Except.ok (Val.str "solid")
    ∧ Transitions.interpolate_values (Val.str "solid") (Val.str "dashed") (1/2)
        = Except.ok (Val.str "dashed") :=
  ⟨(categorical_hard_switch "solid" "dashed" (49/100) (Or.inl rfl)).1 (by norm_num),
   (categorical_hard_switch "solid" "dashed" (1/2) (Or.inl rfl)).2 (by norm_num)⟩

/-- Unfolding lemma for `smooth_transition` on any supported plot type. -/
theorem smooth_transition_ok (fd td : SmoothTransitions.DataDict) (d : ℚ) (fps : ℤ)
    (easing pt : String) (hpt : pt = "line" ∨ pt = "scatter" ∨ pt = "bar")
    (hfd : (fd.x.getD []).length = (fd.y.getD []).length) :
    SmoothTransitions.smooth_transition fd td d fps easing pt
      = Except.ok
          { total_frames := pyInt (d * (fps : ℚ))
            frames := (List.range (pyInt (d * (fps : ℚ))).toNat).map
              (SmoothTransitions.animate fd td (SmoothTransitions.getEasing easing)
                (pyInt (d * (fps : ℚ)))) } := by
  unfold SmoothTransitions.smooth_transition
  rw [if_pos hpt, if_pos hfd]

theorem animate_frameIndex (fd td : SmoothTransitions.DataDict) (g : ℚ → ℚ)
    (N : ℤ) (i : ℕ) : (SmoothTransitions.animate fd td g N i).frameIndex = i := rfl

theorem animate_progress (fd td : SmoothTransitions.DataDict) (g : ℚ → ℚ)
    (N : ℤ) (i : ℕ) :
    (SmoothTransitions.animate fd td g N i).progress = frameProgress N i := rfl

theorem animate_eased (fd td : SmoothTransitions.DataDict) (g : ℚ → ℚ)
    (N : ℤ) (i : ℕ) :
    (SmoothTransitions.animate fd td g N i).eased_progress = g (frameProgress N i) := rfl

/-- Nonnegative arguments make Python `int()` agree with the floor. -/
theorem pyInt_eq_floor (x : ℚ) (h : 0 ≤ x) : pyInt x = ⌊x⌋ := by
  simp [pyInt, h]

/-- C5 counterexample: constructing with `duration = 0` (and, in the second
conjunct, with `frameRate = -30`) on well-formed (empty) data dictionaries
does not raise any error — a session object is returned, with a nonpositive
frame count and an empty frame sequence. -/
theorem no_validation_counterexample :
    SmoothTransitions.smooth_transition ⟨none, none⟩ ⟨none, none⟩ 0 30
        "linear" "line" = Except.ok ⟨0, []⟩
    ∧ SmoothTransitions.smooth_transition ⟨none, none⟩ ⟨none, none⟩ 1 (-30)
        "linear" "line" = Except.ok ⟨-30, []⟩ := by
  constructor
  · rw [smooth_transition_ok _ _ _ _ _ _ (Or.inl rfl) rfl]
    have h1 : pyInt ((0 : ℚ) * ((30 : ℤ) : ℚ)) = 0 := by
      unfold pyInt
      rw [show (0 : ℚ) * ((30 : ℤ) : ℚ) = ((0 : ℤ) : ℚ) by push_cast; ring,
        if_pos (by norm_num), Int.floor_intCast]
    rw [h1, Int.toNat_of_nonpos (by norm_num)]
    simp
  · rw [smooth_transition_ok _ _ _ _ _ _ (Or.inl rfl) rfl]
    have h1 : pyInt ((1 : ℚ) * ((-30 : ℤ) : ℚ)) = -30 := by
      unfold pyInt
      rw [show (1 : ℚ) * ((-30 : ℤ) : ℚ) = ((-30 : ℤ) : ℚ) by push_cast; ring,
        if_neg (by norm_num), Int.ceil_intCast]
    rw [h1, Int.toNat_of_nonpos (by norm_num)]
    simp

/-- C5 (amended): an unrecognized plot kind is a constructor-time `ValueError`
in `smooth_transitions.py` (and in `transitions.py` it is raised by
`_normalize_data` only when the data is not already in dict form — dict data
passes through with no plot-kind check); `duration ≤ 0` and `frameRate ≤ 0`
are not validated: for data whose "from" x/y series are length-consistent
(so the constructor's initial draw succeeds), construction succeeds and
returns a session whose `int(duration × frameRate) ≤ 0` frame count yields an
empty frame sequence. -/
theorem constructor_validation (fd td : SmoothTransitions.DataDict)
    (d d2 : ℚ) (fps fps2 : ℤ) (easing pt : String)
    (x y hts : Option (List ℚ)) (xs : List ℚ)
    (hpt : ¬ (pt = "line" ∨ pt = "scatter" ∨ pt = "bar"))
    (hd : d ≤ 0) (hfps : 0 ≤ fps) (hd2 : 0 ≤ d2) (hfps2 : fps2 ≤ 0)
    (hfd : (fd.x.getD []).length = (fd.y.getD []).length) :
    SmoothTransitions.smooth_transition fd td d fps easing pt
        = Except.error Err.valueError
    ∧ (∃ s, SmoothTransitions.smooth_transition fd td d fps easing "line"
        = Except.ok s ∧ s.frames = [])
    ∧ (∃ s, SmoothTransitions.smooth_transition fd td d2 fps2 easing "line"
        = Except.ok s ∧ s.frames = [])
    ∧ Transitions._normalize_data (Transitions.PyData.dict x y hts) pt
        = Except.ok ⟨x, y, hts⟩
    ∧ Transitions._normalize_data (Transitions.PyData.ndarray xs) pt
        = Except.error Err.valueError := by
  push_neg at hpt
  obtain ⟨hp1, hp2, hp3⟩ := hpt
  refine ⟨?_, ?_, ?_, rfl, ?_⟩
  · unfold SmoothTransitions.smooth_transition
    rw [if_neg (by push_neg; exact ⟨hp1, hp2, hp3⟩)]
  · refine ⟨_, smooth_transition_ok fd td d fps easing "line" (Or.inl rfl) hfd, ?_⟩
    have hx : d * (fps : ℚ) ≤ 0 := by
      have hf : (0 : ℚ) ≤ (fps : ℚ) := by exact_mod_cast hfps
      exact mul_nonpos_iff.mpr (Or.inr ⟨hd, hf⟩)
    have hp : pyInt (d * (fps : ℚ)) ≤ 0 := by
      unfold pyInt
      split_ifs
      · simpa using Int.floor_mono hx
      · simpa using Int.ceil_mono hx
    simp [Int.toNat_of_nonpos hp]
  · refine ⟨_, smooth_transition_ok fd td d2 fps2 easing "line" (Or.inl rfl) hfd, ?_⟩
    have hx : d2 * (fps2 : ℚ) ≤ 0 := by
      have hf : (fps2 : ℚ) ≤ 0 := by exact_mod_cast hfps2
      exact mul_nonpos_iff.mpr (Or.inl ⟨hd2, hf⟩)
    have hp : pyInt (d2 * (fps2 : ℚ)) ≤ 0 := by
      unfold pyInt
      split_ifs
      · simpa using Int.floor_mono hx
      · simpa using Int.ceil_mono hx
    simp [Int.toNat_of_nonpos hp]
  · simp [Transitions._normalize_data, hp1, hp3]

/-- Witness for C5 at `pt = "heatmap"`, `d = 0`, `fps = 30`, `d2 = 1`,
`fps2 = -30`. -/
theorem constructor_validation_witness :
    SmoothTransitions.smooth_transition ⟨none, none⟩ ⟨none, none⟩ 0 30
        "linear" "heatmap" = Except.error Err.valueError :=
  (constructor_validation ⟨none, none⟩ ⟨none, none⟩ 0 1 30 (-30) "linear" "heatmap"
    none none none [] (by simp) (by norm_num) (by norm_num) (by norm_num)
    (by norm_num) rfl).1

/-- C7: an easing name that is not one of the `EasingFunctions` methods
resolves to the linear easing (eased progress equals progress on every frame),
and this fallback is recoverable: session construction still succeeds and the
full frame sequence is still produced. -/
theorem unknown_easing_falls_back (name : String)
    (h : name ∉ SmoothTransitions.easingNames) (t : ℚ)
    (fd td : SmoothTransitions.DataDict) (d : ℚ) (fps : ℤ)
    (hfd : (fd.x.getD []).length = (fd.y.getD []).length) :
    SmoothTransitions.getEasing name t = t
    ∧ ∃ s, SmoothTransitions.smooth_transition fd td d fps name "line" = Except.ok s
        ∧ s.frames.length = (pyInt (d * (fps : ℚ))).toNat
        ∧ ∀ fr ∈ s.frames, fr.eased_progress = fr.progress := by
  have hge := getEasing_default name h
  constructor
  · rw [hge]
    rfl
  · refine ⟨_, smooth_transition_ok fd td d fps name "line" (Or.inl rfl) hfd, ?_, ?_⟩
    · simp
    · intro fr hfr
      simp only [List.mem_map, List.mem_range] at hfr
      obtain ⟨i, hi, rfl⟩ := hfr
      rw [animate_eased, animate_progress, hge]
      rfl

/-- Witness for C7 at `name = "bounce"`. -/
theorem unknown_easing_falls_back_witness :
    SmoothTransitions.getEasing "bounce" (1/3) = 1/3 :=
  (unknown_easing_falls_back "bounce" (by simp [SmoothTransitions.easingNames]) (1/3)
    ⟨none, none⟩ ⟨none, none⟩ 1 2 rfl).1

/-- C4: a session built from duration `d` and frame rate `fps` has
`int(d × fps) = ⌊d × fps⌋` frames; when that count exceeds 1, frame `i`
carries progress `i / (totalFrames - 1)` clamped to `[0,1]`, so the first
frame has progress 0 and the last has progress 1; when the count is at most 1
every rendered frame carries progress 1; and duration 2.0 at frame rate 30
yields exactly 60 frames. -/
theorem frame_schedule (fd td : SmoothTransitions.DataDict) (d : ℚ) (fps : ℤ)
    (easing pt : String) (s : SmoothTransitions.Session)
    (hok : SmoothTransitions.smooth_transition fd td d fps easing pt = Except.ok s)
    (hd : 0 ≤ d) (hfps : 0 ≤ fps) :
    s.total_frames = ⌊d * (fps : ℚ)⌋
    ∧ s.frames.length = s.total_frames.toNat
    ∧ (∀ i, ∀ hi : i < s.frames.length, (s.frames.get ⟨i, hi⟩).frameIndex = i)
    ∧ (1 < s.total_frames → ∀ i, ∀ hi : i < s.frames.length,
        (s.frames.get ⟨i, hi⟩).progress
          = min 1 (max 0 ((i : ℚ) / ((s.total_frames : ℚ) - 1))))
    ∧ (1 < s.total_frames → ∀ h0 : 0 < s.frames.length,
        (s.frames.get ⟨0, h0⟩).progress = 0)
    ∧ (1 < s.total_frames → ∀ hl : s.frames.length - 1 < s.frames.length,
        (s.frames.get ⟨s.frames.length - 1, hl⟩).progress = 1)
    ∧ (s.total_frames ≤ 1 → s.frames.length ≤ 1 ∧ ∀ fr ∈ s.frames, fr.progress = 1)
    ∧ (SmoothTransitions.smooth_transition fd td 2 30 easing "line").map
        (fun s2 => (s2.total_frames, s2.frames.length)) = Except.ok (60, 60) := by
  have hpt : pt = "line" ∨ pt = "scatter" ∨ pt = "bar" := by
    by_contra hneg
    unfold SmoothTransitions.smooth_transition at hok
    rw [if_neg hneg] at hok
    exact absurd hok (by simp)
  have hfd : (fd.x.getD []).length = (fd.y.getD []).length := by
    by_contra hneg
    unfold SmoothTransitions.smooth_transition at hok
    rw [if_pos hpt, if_neg hneg] at hok
    exact absurd hok (by simp)
  rw [smooth_transition_ok fd td d fps easing pt hpt hfd] at hok
  obtain rfl := Except.ok.inj hok
  set N := pyInt (d * (fps : ℚ)) with hNdef
  have hN : N = ⌊d * (fps : ℚ)⌋ :=
    pyInt_eq_floor _ (mul_nonneg hd (by exact_mod_cast hfps))
  refine ⟨hN, ?_, ?_, ?_, ?_, ?_, ?_, ?_⟩
  · dsimp only
    rw [List.length_map, List.length_range]
  · intro i hi
    dsimp only at hi ⊢
    simp only [List.get_eq_getElem, List.getElem_map, List.getElem_range]
    rw [animate_frameIndex]
  · intro hgt i hi
    dsimp only at hgt hi ⊢
    simp only [List.get_eq_getElem, List.getElem_map, List.getElem_range,
      animate_progress]
    unfold frameProgress
    rw [if_pos hgt]
  · intro hgt h0
    dsimp only at hgt h0 ⊢
    simp only [List.get_eq_getElem, List.getElem_map, List.getElem_range,
      animate_progress]
    unfold frameProgress
    rw [if_pos hgt]
    norm_num
  · intro hgt hl
    dsimp only at hgt hl ⊢
    simp only [List.length_map, List.length_range] at hl ⊢
    simp only [List.get_eq_getElem, List.getElem_map, List.getElem_range,
      animate_progress]
    unfold frameProgress
    rw [if_pos hgt]
    have h2 : 1 ≤ N.toNat := by omega
    have h3 : (N.toNat : ℤ) = N := Int.toNat_of_nonneg (by omega)
    have h4 : ((N.toNat : ℕ) : ℚ) = (N : ℚ) := by exact_mod_cast h3
    have h5 : ((N.toNat - 1 : ℕ) : ℚ) = (N : ℚ) - 1 := by
      rw [Nat.cast_sub h2, h4, Nat.cast_one]
    rw [h5]
    have h6 : (N : ℚ) - 1 ≠ 0 := by
      have hge2 : (2 : ℚ) ≤ (N : ℚ) := by exact_mod_cast (by omega : (2 : ℤ) ≤ N)
      intro hcon
      nlinarith
    rw [div_self h6]
    norm_num
  · intro hle
    dsimp only at hle ⊢
    constructor
    · rw [List.length_map, List.length_range]
      omega
    · intro fr hfr
      simp only [List.mem_map, List.mem_range] at hfr
      obtain ⟨i, hi, rfl⟩ := hfr
      rw [animate_progress]
      unfold frameProgress
      rw [if_neg (by omega)]
      norm_num
  · rw [smooth_transition_ok fd td 2 30 easing "line" (Or.inl rfl) hfd]
    have h60 : pyInt ((2 : ℚ) * ((30 : ℤ) : ℚ)) = 60 := by
      unfold pyInt
      rw [show (2 : ℚ) * ((30 : ℤ) : ℚ) = ((60 : ℤ) : ℚ) by push_cast; ring,
        if_pos (by norm_num), Int.floor_intCast]
    rw [h60]
    simp [Except.map]

/-- Witness for C4 on the session produced by `duration = 2`, `fps = 1`. -/
theorem frame_schedule_witness :
    sampleSession.total_frames = ⌊(2 : ℚ) * ((1 : ℤ) : ℚ)⌋
    ∧ sampleSession.frames.length = sampleSession.total_frames.toNat := by
  have hok : SmoothTransitions.smooth_transition ⟨none, none⟩ ⟨none, none⟩ 2 1
      "linear" "line" = Except.ok sampleSession := by
    rw [smooth_transition_ok _ _ _ _ _ _ (Or.inl rfl) rfl]
    have h2 : pyInt ((2 : ℚ) * ((1 : ℤ) : ℚ)) = 2 := by
      unfold pyInt
      rw [show (2 : ℚ) * ((1 : ℤ) : ℚ) = ((2 : ℤ) : ℚ) by push_cast; ring,
        if_pos (by norm_num), Int.floor_intCast]
    rw [h2]
    have hp0 : frameProgress 2 0 = 0 := by
      unfold frameProgress
      norm_num
    have hp1 : frameProgress 2 1 = 1 := by
      unfold frameProgress
      norm_num
    have ha0 : SmoothTransitions.animate ⟨none, none⟩ ⟨none, none⟩
        SmoothTransitions.linear 2 0
        = { frameIndex := 0, progress := 0, eased_progress := 0, ydata := none } := by
      unfold SmoothTransitions.animate
      rw [hp0]
      rfl
    have ha1 : SmoothTransitions.animate ⟨none, none⟩ ⟨none, none⟩
        SmoothTransitions.linear 2 1
        = { frameIndex := 1, progress := 1, eased_progress := 1, ydata := none } := by
      unfold SmoothTransitions.animate
      rw [hp1]
      rfl
    simp [sampleSession, List.range_succ, ha0, ha1,
      SmoothTransitions.getEasing, SmoothTransitions.linear]
  have h := frame_schedule ⟨none, none⟩ ⟨none, none⟩ 2 1 "linear" "line" sampleSession
    hok (by norm_num) (by norm_num)
  exact ⟨h.1, h.2.1⟩

/-- C1 counterexample: interpolating the length-2 list `[1, 2]` against the
length-1 list `[3]` at progress 0.3 does not report any error — it silently
returns the entire "from" list. -/
theorem vector_mismatch_counterexample :
    Transitions.interpolate_values (Val.list [Val.num 1, Val.num 2])
        (Val.list [Val.num 3]) (3/10)
      = Except.ok (Val.list [Val.num 1, Val.num 2]) := by
  simp +decide [Transitions.interpolate_values]
  norm_num

/-- C1 (amended): scalars and equal-length Vectors blend linearly and
elementwise (`a + (b - a) × progress`) in both implementations; for
unequal-length Vectors, numpy-array inputs whose shapes do not broadcast
raise a `ValueError`, while Python list/tuple inputs in `transitions.py` fall
through to the hard switch, silently returning the whole "from" value for
progress < 0.5 and the whole "to" value otherwise — no ValueMismatch
diagnostic exists. -/
theorem scalar_vector_blend (a b p : ℚ) (xs ys : List ℚ)
    (hxy : xs.length = ys.length) (us vs : List Val) (huv : us.length ≠ vs.length)
    (as bs : List ℚ) (hab : as.length ≠ bs.length)
    (ha1 : as.length ≠ 1) (hb1 : bs.length ≠ 1) :
    Transitions.interpolate_values (Val.num a) (Val.num b) p
        = Except.ok (Val.num (a + (b - a) * p))
    ∧ Transitions.interpolate_values (Val.arr xs) (Val.arr ys) p
        = Except.ok (Val.arr (List.zipWith (fun u v => u + (v - u) * p) xs ys))
    ∧ SmoothTransitions.interpolate_values (Val.num a) (Val.num b) p
        = Except.ok (Val.num (a + (b - a) * p))
    ∧ SmoothTransitions.interpolate_values (Val.arr xs) (Val.arr ys) p
        = Except.ok (Val.arr (List.zipWith (fun u v => u + (v - u) * p) xs ys))
    ∧ Transitions.interpolate_values (Val.list us) (Val.list vs) p
        = Except.ok (if p < 1/2 then Val.list us else Val.list vs)
    ∧ Transitions.interpolate_values (Val.arr as) (Val.arr bs) p
        = Except.error Err.valueError
    ∧ SmoothTransitions.interpolate_values (Val.arr as) (Val.arr bs) p
        = Except.error Err.valueError := by
  refine ⟨?_, ?_, ?_, ?_, ?_, ?_, ?_⟩
  · simp [Transitions.interpolate_values]
  · simp [Transitions.interpolate_values, npLinearBlend_eq_zipWith xs ys hxy p,
      Except.map]
  · simp [SmoothTransitions.interpolate_values]
  · simp [SmoothTransitions.interpolate_values, npLinearBlend_eq_zipWith xs ys hxy p,
      Except.map]
  · simp [Transitions.interpolate_values, huv]
  · simp [Transitions.interpolate_values, npLinearBlend,
      npBroadcastZip_none as bs hab ha1 hb1, Except.map]
  · simp [SmoothTransitions.interpolate_values, npLinearBlend,
      npBroadcastZip_none as bs hab ha1 hb1, Except.map]

/-- Witness for C1: `interpolate(0, 10, 1/2) = 5`. -/
theorem scalar_vector_blend_witness :
    Transitions.interpolate_values (Val.num 0) (Val.num 10) (1/2)
      = Except.ok (Val.num (0 + (10 - 0) * (1/2))) :=
  (scalar_vector_blend 0 10 (1/2) [0] [10] rfl [Val.num 1, Val.num 2] [Val.num 3]
    (by simp) [1, 2] [3, 4, 5] (by simp) (by simp) (by simp)).1

/-- C3 counterexample: when conversion of the "from" color fails,
`transitions.py` does not fall back to the "from" value for every progress —
at progress 0.6 it returns the "to" value. -/
theorem color_fallback_counterexample :
    Transitions.interpolate_values (Val.str "notacolor") (Val.str "blue") (3/5)
        = Except.ok (Val.str "blue")
    ∧ Transitions.interpolate_values (Val.str "notacolor") (Val.str "blue") (3/5)
        ≠ Except.ok (Val.str "notacolor") := by
  have h : Transitions.interpolate_values (Val.str "notacolor") (Val.str "blue") (3/5)
      = Except.ok (Val.str "blue") := by
    simp +decide [Transitions.interpolate_values, to_rgb]
    norm_num
  refine ⟨h, ?_⟩
  rw [h]
  simp +decide

/-- C3 (amended): `smooth_transitions.interpolate_colors` converts both inputs
(named colors, hex strings, RGBA tuples) to 4-channel normalized RGBA and
blends every channel linearly, alpha included, so
`interpolate(RGBA(1,0,0,1), RGBA(0,0,1,1), 0.5) = RGBA(0.5,0,0.5,1)`; on a
failed conversion `smooth_transitions` propagates the `ValueError`, while the
string-color path of `transitions.py` falls back to a hard switch — the
"from" value for progress < 0.5 and the "to" value for progress ≥ 0.5, not
the "from" value for every progress. -/
theorem color_channel_blend (f t f2 t2 : Val) (fr fg fb fa tr tg tb ta p q : ℚ)
    (a b : String)
    (hf : SmoothTransitions.to_rgba f = some (fr, fg, fb, fa))
    (ht : SmoothTransitions.to_rgba t = some (tr, tg, tb, ta))
    (hf2 : SmoothTransitions.to_rgba f2 = none)
    (hab : to_rgb a = none ∨ to_rgb b = none) :
    SmoothTransitions.interpolate_colors f t p
        = Except.ok (fr + (tr - fr) * p, fg + (tg - fg) * p, fb + (tb - fb) * p,
            fa + (ta - fa) * p)
    ∧ SmoothTransitions.interpolate_colors
        (Val.list [Val.num 1, Val.num 0, Val.num 0, Val.num 1])
        (Val.list [Val.num 0, Val.num 0, Val.num 1, Val.num 1]) (1/2)
        = Except.ok (1/2, 0, 1/2, 1)
    ∧ SmoothTransitions.interpolate_colors f2 t2 p = Except.error Err.valueError
    ∧ (q < 1/2 → Transitions.interpolate_values (Val.str a) (Val.str b) q
        = Except.ok (Val.str a))
    ∧ (1/2 ≤ q → Transitions.interpolate_values (Val.str a) (Val.str b) q
        = Except.ok (Val.str b)) := by
  refine ⟨?_, ?_, ?_, (interpolate_str_fallback a b q hab).1,
    (interpolate_str_fallback a b q hab).2⟩
  · simp [SmoothTransitions.interpolate_colors, hf, ht]
  · simp +decide [SmoothTransitions.interpolate_colors, SmoothTransitions.to_rgba]
    norm_num
  · simp [SmoothTransitions.interpolate_colors, hf2]

/-- Witness for C3: the RGBA color law at progress 1/2 between pure red and
pure blue, both fully opaque. -/
theorem color_channel_blend_witness :
    SmoothTransitions.interpolate_colors
        (Val.list [Val.num 1, Val.num 0, Val.num 0, Val.num 1])
        (Val.list [Val.num 0, Val.num 0, Val.num 1, Val.num 1]) (1/2)
      = Except.ok (1/2, 0, 1/2, 1) :=
  (color_channel_blend
    (Val.list [Val.num 1, Val.num 0, Val.num 0, Val.num 1])
    (Val.list [Val.num 0, Val.num 0, Val.num 1, Val.num 1])
    (Val.str "notacolor") (Val.str "blue")
    1 0 0 1 0 0 1 1 (1/2) (1/2) "solid" "dashed"
    (by simp +decide [SmoothTransitions.to_rgba])
    (by simp +decide [SmoothTransitions.to_rgba])
    (by simp +decide [SmoothTransitions.to_rgba, to_rgb])
    (Or.inl rfl)).2.1

/-- Inversion for a successful `Except` bind. -/
theorem except_bind_ok {α β : Type} (x : Except Err α) (k : α → Except Err β) (b : β)
    (h : (x >>= k) = Except.ok b) : ∃ a, x = Except.ok a ∧ k a = Except.ok b := by
  cases x with
  | ok a => exact ⟨a, rfl, h⟩
  | error e => exact absurd h (by simp [Bind.bind, Except.bind])

/-- C6: every delivered frame renders exactly the first
`min(countFrom, countTo)` positional pairs of lines; elements beyond that
index appear in no rendered output. -/
theorem pairing_truncation (fromLines toLines : List Transitions.LineState) (p : ℚ)
    (r : List Transitions.RenderedLine)
    (h : Transitions.render_lines fromLines toLines p = Except.ok r) :
    r.length = min fromLines.length toLines.length := by
  induction fromLines generalizing toLines r with
  | nil =>
      simp only [Transitions.render_lines] at h
      obtain rfl := Except.ok.inj h
      simp
  | cons fl fls ih =>
      cases toLines with
      | nil =>
          simp only [Transitions.render_lines] at h
          obtain rfl := Except.ok.inj h
          simp
      | cons tl tls =>
          simp only [Transitions.render_lines] at h
          obtain ⟨xv, hx, h⟩ := except_bind_ok _ _ _ h
          obtain ⟨yv, hy, h⟩ := except_bind_ok _ _ _ h
          obtain ⟨cv, hc, h⟩ := except_bind_ok _ _ _ h
          obtain ⟨wv, hw, h⟩ := except_bind_ok _ _ _ h
          obtain ⟨mv, hm, h⟩ := except_bind_ok _ _ _ h
          obtain ⟨rest, hrest, h⟩ := except_bind_ok _ _ _ h
          obtain rfl := Except.ok.inj h
          simp only [List.length_cons, ih tls rest hrest]
          omega

/-- Witness for C6: pairing 3 captured lines against 2 yields exactly
`min 3 2 = 2` rendered lines. -/
theorem pairing_truncation_witness :
    ([Transitions.sampleRendered, Transitions.sampleRendered]).length
      = min ([Transitions.sampleLine 0, Transitions.sampleLine 0,
              Transitions.sampleLine 0].length)
            ([Transitions.sampleLine 1, Transitions.sampleLine 1].length) :=
  pairing_truncation _ _ (1/2) _ (by
    simp +decide [Transitions.render_lines, Transitions.interpolate_values,
      Transitions.sampleLine, Transitions.sampleRendered, npLinearBlend,
      npBroadcastZip, Except.map, Bind.bind, Except.bind])

theorem val_sizeOf_pos (a : Val) : 1 ≤ sizeOf a := by
  cases a <;> simp_arith

theorem vallist_sizeOf_pos (vs : List Val) : 1 ≤ sizeOf vs := by
  cases vs <;> simp_arith

/-- The interpolator is the identity on equal arguments free of
color-parseable strings, proved by strong induction on the size of the
value. -/
theorem interpolate_self_aux (n : ℕ) :
    (∀ a : Val, sizeOf a ≤ n → Transitions.colorFree a = true → ∀ p : ℚ,
        Transitions.interpolate_values a a p = Except.ok a)
    ∧ (∀ vs : List Val, sizeOf vs ≤ n → Transitions.colorFreeList vs = true → ∀ p : ℚ,
        Transitions.interpolateElems vs vs p = Except.ok vs) := by
  induction n with
  | zero =>
      constructor
      · intro a ha
        exact absurd ha (by have := val_sizeOf_pos a; omega)
      · intro vs hvs
        exact absurd hvs (by have := vallist_sizeOf_pos vs; omega)
  | succ n ih =>
      constructor
      · intro a ha hfree p
        cases a with
        | num x => simp [Transitions.interpolate_values]
        | arr xs =>
            simp [Transitions.interpolate_values, npLinearBlend_self, Except.map]
        | str s =>
            have hnone : to_rgb s = none := by
              simpa [Transitions.colorFree, Option.isNone_iff_eq_none] using hfree
            simp [Transitions.interpolate_values, hnone]
        | list vs =>
            have hvs : sizeOf vs ≤ n := by
              have hspec := Val.list.sizeOf_spec vs
              omega
            have hfree2 : Transitions.colorFreeList vs = true := by
              simpa [Transitions.colorFree] using hfree
            simp [Transitions.interpolate_values, ih.2 vs hvs hfree2 p, Except.map]
      · intro vs hvs hfree p
        cases vs with
        | nil => simp [Transitions.interpolateElems]
        | cons v vs =>
            have hspec := List.cons.sizeOf_spec v vs
            have hv1 := val_sizeOf_pos v
            have hvs1 := vallist_sizeOf_pos vs
            have h1 : sizeOf v ≤ n := by omega
            have h2 : sizeOf vs ≤ n := by omega
            have hf := hfree
            simp only [Transitions.colorFreeList, Bool.and_eq_true] at hf
            obtain ⟨hf1, hf2⟩ := hf
            simp only [Transitions.interpolateElems, ih.1 v h1 hf1 p,
              ih.2 vs h2 hf2 p, Bind.bind, Except.bind]

/-- C9 counterexample: the identity law fails for a color-parseable string —
interpolating "red" with itself returns the RGB triple `(1, 0, 0)`, not the
string "red". -/
theorem identity_color_counterexample :
    Transitions.interpolate_values (Val.str "red") (Val.str "red") (1/4)
        = Except.ok (Val.list [Val.num 1, Val.num 0, Val.num 0])
    ∧ Transitions.interpolate_values (Val.str "red") (Val.str "red") (1/4)
        ≠ Except.ok (Val.str "red") := by
  have h : Transitions.interpolate_values (Val.str "red") (Val.str "red") (1/4)
      = Except.ok (Val.list [Val.num 1, Val.num 0, Val.num 0]) := by
    simp +decide [Transitions.interpolate_values, to_rgb]
  refine ⟨h, ?_⟩
  rw [h]
  simp

/-- C9 (amended): for every `p ∈ [0,1]`, `interpolate(a, a, p)` returns `a`
when `a` contains no color-parseable string (scalars, numpy arrays, nested
numeric lists, non-color categorical strings, and numeric RGBA tuples); for a
color-parseable string, it returns the RGB triple of that same color instead
of the string itself. -/
theorem interpolate_identity (a : Val) (p : ℚ) (hp0 : 0 ≤ p) (hp1 : p ≤ 1)
    (s : String) (r g b : ℚ) (hfree : Transitions.colorFree a = true)
    (hs : to_rgb s = some (r, g, b)) :
    Transitions.interpolate_values a a p = Except.ok a
    ∧ Transitions.interpolate_values (Val.str s) (Val.str s) p
        = Except.ok (Val.list [Val.num r, Val.num g, Val.num b]) := by
  constructor
  · exact (interpolate_self_aux (sizeOf a)).1 a le_rfl hfree p
  · simp [Transitions.interpolate_values, hs]

/-- Witness for C9 on a nested vector value at `p = 1/2`. -/
theorem interpolate_identity_witness :
    Transitions.interpolate_values (Val.list [Val.num 2, Val.arr [3]])
        (Val.list [Val.num 2, Val.arr [3]]) (1/2)
      = Except.ok (Val.list [Val.num 2, Val.arr [3]]) :=
  (interpolate_identity (Val.list [Val.num 2, Val.arr [3]]) (1/2) (by norm_num)
    (by norm_num) "red" 1 0 0
    (by simp [Transitions.colorFree, Transitions.colorFreeList]) rfl).1

theorem ease_in_quad_mono (s t : ℚ) (hs : 0 ≤ s) (hst : s ≤ t) :
    SmoothTransitions.ease_in_quad s ≤ SmoothTransitions.ease_in_quad t := by
  unfold SmoothTransitions.ease_in_quad
  nlinarith

theorem ease_out_quad_mono (s t : ℚ) (hst : s ≤ t) (ht : t ≤ 1) :
    SmoothTransitions.ease_out_quad s ≤ SmoothTransitions.ease_out_quad t := by
  unfold SmoothTransitions.ease_out_quad
  nlinarith

theorem ease_in_out_quad_mono (s t : ℚ) (hs : 0 ≤ s) (hst : s ≤ t) (ht : t ≤ 1) :
    SmoothTransitions.ease_in_out_quad s ≤ SmoothTransitions.ease_in_out_quad t := by
  unfold SmoothTransitions.ease_in_out_quad
  split_ifs with h1 h2 h2
  · nlinarith
  · nlinarith [mul_nonneg hs (by linarith : (0:ℚ) ≤ 1/2 - s),
      mul_nonneg (by linarith : (0:ℚ) ≤ t - 1/2) (by linarith : (0:ℚ) ≤ 1 - t)]
  · linarith
  · nlinarith [mul_nonneg (by linarith : (0:ℚ) ≤ t - s)
      (by linarith : (0:ℚ) ≤ 2 - s - t)]

theorem ease_in_cubic_mono (s t : ℚ) (hs : 0 ≤ s) (hst : s ≤ t) :
    SmoothTransitions.ease_in_cubic s ≤ SmoothTransitions.ease_in_cubic t := by
  unfold SmoothTransitions.ease_in_cubic
  nlinarith [pow_le_pow_left₀ hs hst 3]

theorem ease_out_cubic_mono (s t : ℚ) (hst : s ≤ t) (ht : t ≤ 1) :
    SmoothTransitions.ease_out_cubic s ≤ SmoothTransitions.ease_out_cubic t := by
  unfold SmoothTransitions.ease_out_cubic
  have h := pow_le_pow_left₀ (by linarith : (0:ℚ) ≤ 1 - t)
    (by linarith : 1 - t ≤ 1 - s) 3
  linarith

theorem ease_in_out_cubic_mono (s t : ℚ) (hs : 0 ≤ s) (hst : s ≤ t) (ht : t ≤ 1) :
    SmoothTransitions.ease_in_out_cubic s ≤ SmoothTransitions.ease_in_out_cubic t := by
  unfold SmoothTransitions.ease_in_out_cubic
  split_ifs with h1 h2 h2
  · nlinarith [pow_le_pow_left₀ hs hst 3]
  · nlinarith [pow_le_pow_left₀ hs h1.le 3,
      pow_le_pow_left₀ (by linarith : (0:ℚ) ≤ 1 - t) (by linarith : 1 - t ≤ 1/2) 3]
  · linarith
  · have h := pow_le_pow_left₀ (by linarith : (0:ℚ) ≤ 1 - t)
      (by linarith : 1 - t ≤ 1 - s) 3
    linarith

theorem ease_in_sine_mono (u v : ℝ) (hu : 0 ≤ u) (huv : u ≤ v) (hv : v ≤ 1) :
    Transitions.ease_in_sine u ≤ Transitions.ease_in_sine v := by
  unfold Transitions.ease_in_sine
  have hpi := Real.pi_pos
  have h1 : (0:ℝ) ≤ u * Real.pi / 2 := by nlinarith
  have h2 : v * Real.pi / 2 ≤ Real.pi := by nlinarith
  have h3 : u * Real.pi / 2 ≤ v * Real.pi / 2 := by nlinarith
  have h := Real.cos_le_cos_of_nonneg_of_le_pi h1 h2 h3
  linarith

theorem ease_out_sine_mono (u v : ℝ) (hu : 0 ≤ u) (huv : u ≤ v) (hv : v ≤ 1) :
    Transitions.ease_out_sine u ≤ Transitions.ease_out_sine v := by
  unfold Transitions.ease_out_sine
  have hpi := Real.pi_pos
  have h1 : -(Real.pi / 2) ≤ u * Real.pi / 2 := by nlinarith
  have h2 : v * Real.pi / 2 ≤ Real.pi / 2 := by nlinarith
  have h3 : u * Real.pi / 2 ≤ v * Real.pi / 2 := by nlinarith
  exact Real.sin_le_sin_of_le_of_le_pi_div_two h1 h2 h3

theorem ease_in_out_sine_mono (u v : ℝ) (hu : 0 ≤ u) (huv : u ≤ v) (hv : v ≤ 1) :
    Transitions.ease_in_out_sine u ≤ Transitions.ease_in_out_sine v := by
  unfold Transitions.ease_in_out_sine
  have hpi := Real.pi_pos
  have h1 : (0:ℝ) ≤ Real.pi * u := by nlinarith
  have h2 : Real.pi * v ≤ Real.pi := by nlinarith
  have h3 : Real.pi * u ≤ Real.pi * v := by nlinarith
  have h := Real.cos_le_cos_of_nonneg_of_le_pi h1 h2 h3
  linarith

/-- C10: every built-in easing function of both `EasingFunctions` classes —
the seven rational ones in each class and the three sinusoidal ones of
`transitions.py` — is monotone nondecreasing on `[0,1]`, so eased progress
never moves backwards as the frame index increases. -/
theorem easing_monotone (s t : ℚ) (u v : ℝ) (hs : 0 ≤ s) (hst : s ≤ t) (ht : t ≤ 1)
    (hu : 0 ≤ u) (huv : u ≤ v) (hv : v ≤ 1) :
    Transitions.linear s ≤ Transitions.linear t
    ∧ Transitions.ease_in_quad s ≤ Transitions.ease_in_quad t
    ∧ Transitions.ease_out_quad s ≤ Transitions.ease_out_quad t
    ∧ Transitions.ease_in_out_quad s ≤ Transitions.ease_in_out_quad t
    ∧ Transitions.ease_in_cubic s ≤ Transitions.ease_in_cubic t
    ∧ Transitions.ease_out_cubic s ≤ Transitions.ease_out_cubic t
    ∧ Transitions.ease_in_out_cubic s ≤ Transitions.ease_in_out_cubic t
    ∧ Transitions.ease_in_sine u ≤ Transitions.ease_in_sine v
    ∧ Transitions.ease_out_sine u ≤ Transitions.ease_out_sine v
    ∧ Transitions.ease_in_out_sine u ≤ Transitions.ease_in_out_sine v
    ∧ SmoothTransitions.linear s ≤ SmoothTransitions.linear t
    ∧ SmoothTransitions.ease_in_quad s ≤ SmoothTransitions.ease_in_quad t
    ∧ SmoothTransitions.ease_out_quad s ≤ SmoothTransitions.ease_out_quad t
    ∧ SmoothTransitions.ease_in_out_quad s ≤ SmoothTransitions.ease_in_out_quad t
    ∧ SmoothTransitions.ease_in_cubic s ≤ SmoothTransitions.ease_in_cubic t
    ∧ SmoothTransitions.ease_out_cubic s ≤ SmoothTransitions.ease_out_cubic t
    ∧ SmoothTransitions.ease_in_out_cubic s ≤ SmoothTransitions.ease_in_out_cubic t := by
  refine ⟨hst, ?_, ?_, ?_, ?_, ?_, ?_, ease_in_sine_mono u v hu huv hv,
    ease_out_sine_mono u v hu huv hv, ease_in_out_sine_mono u v hu huv hv,
    hst, ease_in_quad_mono s t hs hst, ease_out_quad_mono s t hst ht,
    ease_in_out_quad_mono s t hs hst ht, ease_in_cubic_mono s t hs hst,
    ease_out_cubic_mono s t hst ht, ease_in_out_cubic_mono s t hs hst ht⟩
  · exact ease_in_quad_mono s t hs hst
  · exact ease_out_quad_mono s t hst ht
  · rw [ease_in_out_quad_agree s, ease_in_out_quad_agree t]
    exact ease_in_out_quad_mono s t hs hst ht
  · exact ease_in_cubic_mono s t hs hst
  · exact ease_out_cubic_mono s t hst ht
  · rw [ease_in_out_cubic_agree s, ease_in_out_cubic_agree t]
    exact ease_in_out_cubic_mono s t hs hst ht

/-- Witness for C10 at the endpoints of `[0,1]`. -/
theorem easing_monotone_witness :
    Transitions.ease_in_out_cubic 0 ≤ Transitions.ease_in_out_cubic 1
    ∧ Transitions.ease_in_sine 0 ≤ Transitions.ease_in_sine 1 := by
  have h := easing_monotone 0 1 0 1 (by norm_num) (by norm_num) (by norm_num)
    (by norm_num) (by norm_num) (by norm_num)
  exact ⟨h.2.2.2.2.2.2.1, h.2.2.2.2.2.2.2.1⟩
